import Mathlib

/-!
Verification of the ELF object generator (`pymisp/tools/elfobject.py`).

The module is a thin mapping layer: it takes a parsed ELF binary (produced by
the external `lief` library, modelled here as plain data) and emits a MISP
"elf" object record plus one "elf-section" record per named section, with
per-section hashes computed by the external `hashlib`/`pydeep` libraries
(modelled as function parameters with their documented guarantees).
-/

/-- Value of a MISP attribute. Values emitted by this module are strings
(enum labels, hex digests, names), unsigned integers (entrypoint, sizes,
counts) or the parser's floating-point entropy (modelled as a rational). -/
inductive AttrVal where
  | str (s : String)
  | num (n : Nat)
  | rat (q : Rat)
deriving DecidableEq, Repr

/-- One `add_attribute(object_relation, value=...)` call on a MISP object. -/
structure MISPAttribute where
  object_relation : String
  value : AttrVal
deriving DecidableEq, Repr

/-- One `add_reference(referenced_uuid, relationship_type, comment)` call.
Each `ELFSectionObject` gets a fresh uuid at construction; we model the uuid
by the ordinal of the referenced section object among the produced section
objects (uuids are fresh and distinct per constructed object). -/
structure MISPReference where
  referenced_uuid : Nat
  relationship_type : String
  comment : String
deriving DecidableEq, Repr

/-- An ELF section as exposed by the lief parser: `name`, `type` (its `str()`
rendering, e.g. "SECTION_TYPES.PROGBITS"), `flags_list` (each flag's `str()`
rendering), `size` (unsigned), `entropy` (a float in the source, modelled as
a rational; no claim depends on its value) and `content` (the raw bytes). -/
structure ELFSection where
  name : String
  type : String
  flags_list : List String
  size : Nat
  entropy : Rat
  content : List Nat
deriving DecidableEq, Repr

/-- The ELF header as exposed by lief: `str()` renderings of the three enum
classifications used by the generator. -/
structure ELFHeader where
  file_type : String
  machine_type : String
  identity_os_abi : String
deriving DecidableEq, Repr

/-- A parsed ELF binary (`lief.ELF.Binary`) as consumed by the generator. -/
structure ELFBinary where
  header : ELFHeader
  entrypoint : Nat
  sections : List ELFSection
deriving DecidableEq, Repr

/-- External hashing capabilities used by the generator: `hashlib`'s four hex
digests and `pydeep.hash_buf` composed with `bytes.decode` (the decoded
fuzzy-hash digest). They are black boxes to this module, so the embedding is
parameterised by them. -/
structure ExtLib where
  md5hex : List Nat → String
  sha1hex : List Nat → String
  sha256hex : List Nat → String
  sha512hex : List Nat → String
  hash_buf : List Nat → String

/-- The documented guarantee of `hashlib`: hex digests have fixed lengths
32 (md5), 40 (sha1), 64 (sha256) and 128 (sha512). -/
def ExtLib.WellFormed (H : ExtLib) : Prop :=
  ∀ bs : List Nat,
    (H.md5hex bs).length = 32 ∧ (H.sha1hex bs).length = 40 ∧
    (H.sha256hex bs).length = 64 ∧ (H.sha512hex bs).length = 128

/-- Python `str.split('.')` on a character list: split at every dot, keeping
empty pieces, so the result is always nonempty. -/
def splitDotList : List Char → List (List Char)
  | [] => [[]]
  | c :: rest =>
      if c = '.' then [] :: splitDotList rest
      else
        match splitDotList rest with
        | [] => [[c]]
        | r :: rs => (c :: r) :: rs

/-- Python `str(x).split('.')` as a string-level operation. -/
def pySplitDot (s : String) : List String :=
  (splitDotList s.data).map String.mk

/-- Python `str(x).split('.')[1]`: the namespace-stripping used for every
enum-label attribute. lief enum renderings always contain a dot
("NAMESPACE.LABEL"); on a dotless string Python would raise IndexError,
which this total model maps to "". -/
def enumLabel (s : String) : String :=
  (pySplitDot s).getD 1 ""

/-- `ELFSectionObject`: `__init__` stores `__data = bytes(section.content)`
once, then `generate_attributes` emits name, type, one attribute per flag,
size, and — only for a positive size — entropy, the four hex digests of
`__data`, and the decoded pydeep digest when pydeep imported successfully. -/
def ELFSectionObject.generate_attributes (H : ExtLib) (hasPydeep : Bool)
    (sec : ELFSection) : List MISPAttribute :=
  let data := sec.content
  [⟨"name", .str sec.name⟩,
   ⟨"type", .str (enumLabel sec.type)⟩]
  ++ sec.flags_list.map (fun f => ⟨"flag", .str (enumLabel f)⟩)
  ++ [⟨"size-in-bytes", .num sec.size⟩]
  ++ (if 0 < sec.size then
        [⟨"entropy", .rat sec.entropy⟩,
         ⟨"md5", .str (H.md5hex data)⟩,
         ⟨"sha1", .str (H.sha1hex data)⟩,
         ⟨"sha256", .str (H.sha256hex data)⟩,
         ⟨"sha512", .str (H.sha512hex data)⟩]
        ++ (if hasPydeep then [⟨"ssdeep", .str (H.hash_buf data)⟩] else [])
      else [])

/-- Result of constructing an `ELFObject`: its attributes, its references to
section objects, and the constructed section objects (each one the ordered
attribute list of an `ELFSectionObject`). -/
structure ELFObjectResult where
  attributes : List MISPAttribute
  references : List MISPReference
  sections : List (List MISPAttribute)
deriving DecidableEq, Repr

/-- The section loop of `ELFObject.generate_attributes`: iterate the parser's
sections in order, skip sections with an empty name, construct an
`ELFSectionObject` for each retained section, add a reference with comment
"Section {pos} of ELF", increment `pos`, and append the object. -/
def sectionLoop (H : ExtLib) (hasPydeep : Bool) :
    List ELFSection → Nat → List MISPReference × List (List MISPAttribute)
  | [], _ => ([], [])
  | sec :: rest, pos =>
      if sec.name = "" then sectionLoop H hasPydeep rest pos
      else
        let s := ELFSectionObject.generate_attributes H hasPydeep sec
        let r := sectionLoop H hasPydeep rest (pos + 1)
        (⟨pos, "includes", "Section " ++ toString pos ++ " of ELF"⟩ :: r.1,
         s :: r.2)

/-- `ELFObject.generate_attributes`: header attributes, then the section loop
(guarded by the truthiness of `self.__elf.sections`), then `number-sections`
with the length of the accumulated section list. -/
def ELFObject.generate_attributes (H : ExtLib) (hasPydeep : Bool)
    (elf : ELFBinary) : ELFObjectResult :=
  let headerAttrs : List MISPAttribute :=
    [⟨"type", .str (enumLabel elf.header.file_type)⟩,
     ⟨"entrypoint-address", .num elf.entrypoint⟩,
     ⟨"arch", .str (enumLabel elf.header.machine_type)⟩,
     ⟨"os_abi", .str (enumLabel elf.header.identity_os_abi)⟩]
  let r := if elf.sections.isEmpty then ([], [])
           else sectionLoop H hasPydeep elf.sections 0
  { attributes := headerAttrs ++ [⟨"number-sections", .num r.2.length⟩],
    references := r.1,
    sections := r.2 }

/-- The `pseudofile` argument of `ELFObject.__init__`: `None`, a `BytesIO`,
`bytes`, a `list[int]`, or — as an example of an unsupported type — an `int`. -/
inductive PseudoFileArg where
  | noneArg
  | byteStream (bs : List Nat)
  | bytes (bs : List Nat)
  | intList (l : List Nat)
  | intVal (n : Int)
deriving DecidableEq, Repr

/-- Python truthiness of the `pseudofile` argument: `None` is falsy, a
`BytesIO` object is always truthy (it defines neither `__bool__` nor
`__len__`), `bytes` and `list` are truthy iff nonempty, an `int` iff
nonzero. -/
def PseudoFileArg.truthy : PseudoFileArg → Bool
  | .noneArg => false
  | .byteStream _ => true
  | .bytes bs => !bs.isEmpty
  | .intList l => !l.isEmpty
  | .intVal n => n != 0

/-- The `parsed` argument of `ELFObject.__init__`: `None`, a
`lief.ELF.Binary`, or a value of some other type with the given Python
truthiness. -/
inductive ParsedArg where
  | noneArg
  | binary (b : ELFBinary)
  | other (tyName : String) (isTruthy : Bool)
deriving DecidableEq, Repr

/-- Python truthiness of the `parsed` argument. -/
def ParsedArg.truthy : ParsedArg → Bool
  | .noneArg => false
  | .binary _ => true
  | .other _ t => t

/-- Python truthiness of the `filepath` argument (a string path or `None`). -/
def filepathTruthy : Option String → Bool
  | none => false
  | some p => p != ""

/-- Errors that construction can raise: `InvalidMISPObject` with its message
(the source's single exception class; the spec calls its wrong-argument-type
messages "InvalidInput" and its parse-failure message "UnparsableBinary"),
and Python's `AttributeError` when `self.__elf` was never assigned. -/
inductive PyError where
  | invalidMISPObject (msg : String)
  | attributeError (missingAttr : String)
deriving DecidableEq, Repr

/-- Input resolution in `ELFObject.__init__`: `if pseudofile: ... elif
filepath: ... elif parsed: ...`. Returns the value of `self.__elf`, `none`
when no branch assigned it (note the `filepath` branch assigns only when the
parse succeeds and has no `else`). Parsing is delegated to lief:
`parseObj` is `lief.ELF.parse(obj=...)`, `parseRaw` is
`lief.ELF.parse(raw=...)`, `parsePath` is `lief.ELF.parse(filepath)`. -/
def resolveELF (parseObj parseRaw : List Nat → Option ELFBinary)
    (parsePath : String → Option ELFBinary)
    (parsed : ParsedArg) (filepath : Option String)
    (pseudofile : PseudoFileArg) : Except PyError (Option ELFBinary) :=
  if pseudofile.truthy then
    match pseudofile with
    | .byteStream bs =>
        match parseObj bs with
        | some e => .ok (some e)
        | none => .error (.invalidMISPObject "Unable to parse pseudofile")
    | .bytes bs =>
        match parseRaw bs with
        | some e => .ok (some e)
        | none => .error (.invalidMISPObject "Unable to parse pseudofile")
    | .intList l =>
        match parseRaw l with
        | some e => .ok (some e)
        | none => .error (.invalidMISPObject "Unable to parse pseudofile")
    | .intVal _ => .error (.invalidMISPObject "Pseudo file can be BytesIO or bytes got int")
    | .noneArg => .error (.invalidMISPObject "Pseudo file can be BytesIO or bytes got NoneType")
  else if filepathTruthy filepath then
    match filepath with
    | some p =>
        match parsePath p with
        | some e => .ok (some e)
        | none => .ok none
    | none => .ok none
  else if parsed.truthy then
    match parsed with
    | .binary b => .ok (some b)
    | .other tyName _ => .error (.invalidMISPObject ("Not a lief.ELF.Binary: " ++ tyName))
    | .noneArg => .error (.invalidMISPObject "Not a lief.ELF.Binary: NoneType")
  else .ok none

/-- `ELFObject.__init__`: resolve the input, then call
`generate_attributes`, which raises `AttributeError` on its first
`self.__elf` access when no branch assigned the binary. -/
def ELFObject.init (H : ExtLib) (hasPydeep : Bool)
    (parseObj parseRaw : List Nat → Option ELFBinary)
    (parsePath : String → Option ELFBinary)
    (parsed : ParsedArg) (filepath : Option String)
    (pseudofile : PseudoFileArg) : Except PyError ELFObjectResult :=
  match resolveELF parseObj parseRaw parsePath parsed filepath pseudofile with
  | .error e => .error e
  | .ok (some elf) => .ok (ELFObject.generate_attributes H hasPydeep elf)
  | .ok none => .error (.attributeError "_ELFObject__elf")

/-- The values of the attributes with a given object relation, in emission
order. -/
def attrValues (attrs : List MISPAttribute) (rel : String) : List AttrVal :=
  (attrs.filter fun a => a.object_relation == rel).map (fun a => a.value)

/-! ### Properties of the namespace-stripping helper -/

theorem splitDotList_ne_nil (l : List Char) : splitDotList l ≠ [] := by
  induction l with
  | nil => simp [splitDotList]
  | cons c rest ih =>
      by_cases h : c = '.'
      · simp [splitDotList, h]
      · simp only [splitDotList, if_neg h]
        cases hr : splitDotList rest with
        | nil => simp
        | cons r rs => simp

theorem not_dot_mem_splitDotList (l : List Char) :
    ∀ p ∈ splitDotList l, '.' ∉ p := by
  induction l with
  | nil =>
      intro p hp
      simp only [splitDotList, List.mem_singleton] at hp
      simp [hp]
  | cons c rest ih =>
      intro p hp
      by_cases h : c = '.'
      · simp only [splitDotList, if_pos h, List.mem_cons] at hp
        rcases hp with rfl | hp
        · simp
        · exact ih p hp
      · simp only [splitDotList, if_neg h] at hp
        cases hr : splitDotList rest with
        | nil => exact absurd hr (splitDotList_ne_nil rest)
        | cons r rs =>
            rw [hr] at hp
            rcases List.mem_cons.mp hp with rfl | hp
            · intro hmem
              rcases List.mem_cons.mp hmem with h1 | h1
              · exact h h1.symm
              · exact ih r (hr ▸ List.mem_cons_self r rs) h1
            · exact ih p (hr ▸ List.mem_cons_of_mem r hp)

theorem splitDotList_of_not_mem (l : List Char) (h : '.' ∉ l) :
    splitDotList l = [l] := by
  induction l with
  | nil => rfl
  | cons c rest ih =>
      have hc : c ≠ '.' := fun e => h (e ▸ List.mem_cons_self c rest)
      have hrest : '.' ∉ rest := fun hm => h (List.mem_cons_of_mem c hm)
      simp only [splitDotList, if_neg hc, ih hrest]

theorem splitDotList_append_dot (xs ys : List Char) (h : '.' ∉ xs) :
    splitDotList (xs ++ '.' :: ys) = xs :: splitDotList ys := by
  induction xs with
  | nil => simp [splitDotList]
  | cons x xs ih =>
      have hx : x ≠ '.' := fun e => h (e ▸ List.mem_cons_self x xs)
      have hxs : '.' ∉ xs := fun hm => h (List.mem_cons_of_mem x hm)
      simp only [List.cons_append, splitDotList, if_neg hx]
      rw [List.append_eq, ih hxs]

theorem enumLabel_no_dot (s : String) : '.' ∉ (enumLabel s).data := by
  have hmem := not_dot_mem_splitDotList s.data
  unfold enumLabel pySplitDot
  rcases hsp : splitDotList s.data with _ | ⟨a, _ | ⟨b, rs⟩⟩
  · simp
  · simp
  · have hb : '.' ∉ b := hmem b (by rw [hsp]; simp)
    simpa using hb

theorem enumLabel_strip (ns label : String)
    (hns : '.' ∉ ns.data) (hlab : '.' ∉ label.data) :
    enumLabel (ns ++ "." ++ label) = label := by
  unfold enumLabel pySplitDot
  have hdata : (ns ++ "." ++ label).data = ns.data ++ '.' :: label.data := by
    simp [String.data_append]
  rw [hdata, splitDotList_append_dot _ _ hns, splitDotList_of_not_mem _ hlab]
  simp

/-! ### Characterisation of the section loop -/

theorem sectionLoop_spec (H : ExtLib) (hp : Bool) (l : List ELFSection)
    (pos : Nat) :
    sectionLoop H hp l pos =
      ((List.range (l.filter (fun s => s.name ≠ "")).length).map
          (fun i => MISPReference.mk (pos + i) "includes"
            ("Section " ++ toString (pos + i) ++ " of ELF")),
       (l.filter (fun s => s.name ≠ "")).map
         (ELFSectionObject.generate_attributes H hp)) := by
  induction l generalizing pos with
  | nil => simp [sectionLoop]
  | cons sec rest ih =>
      by_cases h : sec.name = ""
      · simp [sectionLoop, h, ih]
      · have harith : ∀ i : Nat, pos + 1 + i = pos + (i + 1) := by omega
        simp only [sectionLoop, if_neg h, ih (pos + 1)]
        simp [h, List.range_succ_eq_map, List.map_map, Function.comp, harith]

/-- Unfolded form of `ELFObject.generate_attributes`: the emitted attributes,
the references keyed by the zero-based position among retained (named)
sections, and the section objects of exactly the named sections in order. -/
theorem generate_attributes_eq (H : ExtLib) (hasPydeep : Bool)
    (elf : ELFBinary) :
    ELFObject.generate_attributes H hasPydeep elf =
      { attributes :=
          [⟨"type", .str (enumLabel elf.header.file_type)⟩,
           ⟨"entrypoint-address", .num elf.entrypoint⟩,
           ⟨"arch", .str (enumLabel elf.header.machine_type)⟩,
           ⟨"os_abi", .str (enumLabel elf.header.identity_os_abi)⟩,
           ⟨"number-sections",
            .num (elf.sections.filter (fun s => s.name ≠ "")).length⟩],
        references :=
          (List.range (elf.sections.filter (fun s => s.name ≠ "")).length).map
            (fun i => MISPReference.mk i "includes"
              ("Section " ++ toString i ++ " of ELF")),
        sections :=
          (elf.sections.filter (fun s => s.name ≠ "")).map
            (ELFSectionObject.generate_attributes H hasPydeep) } := by
  unfold ELFObject.generate_attributes
  cases h : elf.sections with
  | nil => simp
  | cons a l =>
      simp only [List.isEmpty_cons, Bool.false_eq_true, if_false,
        sectionLoop_spec, Nat.zero_add]
      simp [List.length_map]

/-! ### Concrete sample data for witnesses -/

/-- A constant stand-in for the external hashing library, honouring the
hexdigest length guarantees. -/
def constExtLib : ExtLib :=
  { md5hex := fun _ => String.mk (List.replicate 32 'a'),
    sha1hex := fun _ => String.mk (List.replicate 40 'b'),
    sha256hex := fun _ => String.mk (List.replicate 64 'c'),
    sha512hex := fun _ => String.mk (List.replicate 128 'd'),
    hash_buf := fun _ => "3:hFXFdl:hFl" }

theorem constExtLib_wellFormed : constExtLib.WellFormed := by
  intro bs
  refine ⟨?_, ?_, ?_, ?_⟩ <;> rfl

/-- A parse function standing for lief failing on every input. -/
def noParse : List Nat → Option ELFBinary := fun _ => none

/-- A path-parse function standing for lief failing on every path. -/
def noParsePath : String → Option ELFBinary := fun _ => none

/-- A sample named section with ten zero bytes of content. -/
def sampleSection : ELFSection :=
  { name := ".text",
    type := "SECTION_TYPES.PROGBITS",
    flags_list := ["SECTION_FLAGS.ALLOC", "SECTION_FLAGS.EXECINSTR"],
    size := 10,
    entropy := 0,
    content := List.replicate 10 0 }

/-- A sample zero-size section. -/
def emptySection : ELFSection :=
  { name := ".bss",
    type := "SECTION_TYPES.NOBITS",
    flags_list := ["SECTION_FLAGS.ALLOC"],
    size := 0,
    entropy := 0,
    content := [] }

/-- A sample unnamed section. -/
def unnamedSection : ELFSection :=
  { name := "",
    type := "SECTION_TYPES.NULL",
    flags_list := [],
    size := 0,
    entropy := 0,
    content := [] }

/-- A sample parsed binary with a named, an unnamed and a zero-size section. -/
def sampleBinary : ELFBinary :=
  { header := { file_type := "E_TYPE.EXEC",
                machine_type := "ARCH.X86_64",
                identity_os_abi := "OS_ABI.SYSTEMV" },
    entrypoint := 4096,
    sections := [sampleSection, unnamedSection, emptySection] }

/-! ### Helper: filters across the flag attributes -/

theorem filter_flagAttrs (p : MISPAttribute → Bool) (fl : List String)
    (h : ∀ v : AttrVal, p ⟨"flag", v⟩ = false) :
    (fl.map (fun f => MISPAttribute.mk "flag" (.str (enumLabel f)))).filter p
      = [] := by
  induction fl with
  | nil => rfl
  | cons f fl ih => simp [List.filter_cons, h, ih]

/-- C1: for every section with `size_in_bytes > 0`, the section object
contains exactly the four cryptographic digest attributes md5, sha1, sha256
and sha512, in that order, each a digest of the one byte string
`bytes(section.content)` read once and reused for all four computations,
with hex digest lengths 32, 40, 64 and 128. -/
theorem c1_section_digest_attributes (H : ExtLib) (hasPydeep : Bool)
    (sec : ELFSection) (hwf : H.WellFormed) (hsz : 0 < sec.size) :
    (ELFSectionObject.generate_attributes H hasPydeep sec).filter
        (fun a => a.object_relation ∈ ["md5", "sha1", "sha256", "sha512"]) =
      [⟨"md5", .str (H.md5hex sec.content)⟩,
       ⟨"sha1", .str (H.sha1hex sec.content)⟩,
       ⟨"sha256", .str (H.sha256hex sec.content)⟩,
       ⟨"sha512", .str (H.sha512hex sec.content)⟩]
    ∧ (H.md5hex sec.content).length = 32
    ∧ (H.sha1hex sec.content).length = 40
    ∧ (H.sha256hex sec.content).length = 64
    ∧ (H.sha512hex sec.content).length = 128 := by
  obtain ⟨h1, h2, h3, h4⟩ := hwf sec.content
  refine ⟨?_, h1, h2, h3, h4⟩
  have hflag : ((sec.flags_list.map
      (fun f => MISPAttribute.mk "flag" (.str (enumLabel f)))).filter
      (fun a => a.object_relation ∈ ["md5", "sha1", "sha256", "sha512"])) = [] :=
    filter_flagAttrs _ _ (fun v => rfl)
  simp only [ELFSectionObject.generate_attributes, if_pos hsz]
  cases hasPydeep <;>
    simp [List.filter_append, List.filter_cons, hflag]

theorem c1_section_digest_attributes_witness :
    constExtLib.WellFormed ∧ 0 < sampleSection.size ∧
    ((ELFSectionObject.generate_attributes constExtLib true sampleSection).filter
        (fun a => a.object_relation ∈ ["md5", "sha1", "sha256", "sha512"]) =
      [⟨"md5", .str (constExtLib.md5hex sampleSection.content)⟩,
       ⟨"sha1", .str (constExtLib.sha1hex sampleSection.content)⟩,
       ⟨"sha256", .str (constExtLib.sha256hex sampleSection.content)⟩,
       ⟨"sha512", .str (constExtLib.sha512hex sampleSection.content)⟩]
    ∧ (constExtLib.md5hex sampleSection.content).length = 32
    ∧ (constExtLib.sha1hex sampleSection.content).length = 40
    ∧ (constExtLib.sha256hex sampleSection.content).length = 64
    ∧ (constExtLib.sha512hex sampleSection.content).length = 128) :=
  ⟨constExtLib_wellFormed, by decide,
   c1_section_digest_attributes constExtLib true sampleSection
     constExtLib_wellFormed (by decide)⟩

/-- C2: a zero-size section object consists of exactly name, type, one flag
attribute per flag and size-in-bytes; none of entropy, md5, sha1, sha256,
sha512 or ssdeep is present. -/
theorem c2_zero_size_section (H : ExtLib) (hasPydeep : Bool) (sec : ELFSection)
    (hsz : sec.size = 0) :
    ELFSectionObject.generate_attributes H hasPydeep sec =
      [⟨"name", .str sec.name⟩, ⟨"type", .str (enumLabel sec.type)⟩]
      ++ sec.flags_list.map (fun f => ⟨"flag", .str (enumLabel f)⟩)
      ++ [⟨"size-in-bytes", .num sec.size⟩]
    ∧ ∀ a ∈ ELFSectionObject.generate_attributes H hasPydeep sec,
        a.object_relation ≠ "entropy" ∧ a.object_relation ≠ "md5" ∧
        a.object_relation ≠ "sha1" ∧ a.object_relation ≠ "sha256" ∧
        a.object_relation ≠ "sha512" ∧ a.object_relation ≠ "ssdeep" := by
  have hlt : ¬ 0 < sec.size := by omega
  constructor
  · simp [ELFSectionObject.generate_attributes, if_neg hlt]
  · intro a ha
    simp [ELFSectionObject.generate_attributes, if_neg hlt] at ha
    rcases ha with rfl | rfl | ⟨f, hf, rfl⟩ | rfl <;> simp

theorem c2_zero_size_section_witness :
    emptySection.size = 0 ∧
    (ELFSectionObject.generate_attributes constExtLib true emptySection =
      [⟨"name", .str emptySection.name⟩,
       ⟨"type", .str (enumLabel emptySection.type)⟩]
      ++ emptySection.flags_list.map (fun f => ⟨"flag", .str (enumLabel f)⟩)
      ++ [⟨"size-in-bytes", .num emptySection.size⟩]
    ∧ ∀ a ∈ ELFSectionObject.generate_attributes constExtLib true emptySection,
        a.object_relation ≠ "entropy" ∧ a.object_relation ≠ "md5" ∧
        a.object_relation ≠ "sha1" ∧ a.object_relation ≠ "sha256" ∧
        a.object_relation ≠ "sha512" ∧ a.object_relation ≠ "ssdeep") :=
  ⟨rfl, c2_zero_size_section constExtLib true emptySection rfl⟩

/-- C8: for a section with positive size, the ssdeep attribute is present
iff pydeep was imported successfully at process start, and when present it
is the decoded pydeep digest of the section content; when absent nothing
else is emitted in its place. -/
theorem c8_ssdeep_attribute (H : ExtLib) (hasPydeep : Bool) (sec : ELFSection)
    (hsz : 0 < sec.size) :
    (ELFSectionObject.generate_attributes H hasPydeep sec).filter
        (fun a => a.object_relation == "ssdeep") =
      (if hasPydeep then [⟨"ssdeep", .str (H.hash_buf sec.content)⟩]
       else []) := by
  have hflag : ((sec.flags_list.map
      (fun f => MISPAttribute.mk "flag" (.str (enumLabel f)))).filter
      (fun a => a.object_relation == "ssdeep")) = [] :=
    filter_flagAttrs _ _ (fun v => rfl)
  simp only [ELFSectionObject.generate_attributes, if_pos hsz]
  cases hasPydeep <;>
    simp [List.filter_append, List.filter_cons, hflag]

theorem c8_ssdeep_attribute_witness :
    0 < sampleSection.size ∧
    (ELFSectionObject.generate_attributes constExtLib true sampleSection).filter
        (fun a => a.object_relation == "ssdeep") =
      [⟨"ssdeep", .str (constExtLib.hash_buf sampleSection.content)⟩] ∧
    (ELFSectionObject.generate_attributes constExtLib false sampleSection).filter
        (fun a => a.object_relation == "ssdeep") = [] := by
  refine ⟨by decide, ?_, ?_⟩
  · have h := c8_ssdeep_attribute constExtLib true sampleSection (by decide)
    simpa using h
  · have h := c8_ssdeep_attribute constExtLib false sampleSection (by decide)
    simpa using h

/-- C3: the emitted number-sections attribute equals the number of section
objects actually produced, which is the number of sections with a non-empty
name; there is one reference per produced section object and every reference
points at a produced section object (unnamed sections never appear). -/
theorem c3_section_count (H : ExtLib) (hasPydeep : Bool) (elf : ELFBinary) :
    attrValues (ELFObject.generate_attributes H hasPydeep elf).attributes
        "number-sections"
      = [.num (ELFObject.generate_attributes H hasPydeep elf).sections.length]
    ∧ (ELFObject.generate_attributes H hasPydeep elf).sections.length
      = (elf.sections.filter (fun s => s.name ≠ "")).length
    ∧ (ELFObject.generate_attributes H hasPydeep elf).references.length
      = (ELFObject.generate_attributes H hasPydeep elf).sections.length
    ∧ ∀ r ∈ (ELFObject.generate_attributes H hasPydeep elf).references,
        r.referenced_uuid
          < (ELFObject.generate_attributes H hasPydeep elf).sections.length := by
  rw [generate_attributes_eq]
  refine ⟨?_, ?_, ?_, ?_⟩
  · simp [attrValues, List.filter_cons]
  · simp
  · simp
  · intro r hr
    simp only [List.mem_map, List.mem_range] at hr
    obtain ⟨i, hi, rfl⟩ := hr
    simpa using hi

/-- C7: section enumeration retains exactly the sections with a non-empty
name, in the parser's order, constructing one section object per retained
section; the references carry the zero-based position among retained
sections, used only in the comment "Section i of ELF" with relationship
"includes". -/
theorem c7_section_enumeration (H : ExtLib) (hasPydeep : Bool)
    (elf : ELFBinary) :
    (ELFObject.generate_attributes H hasPydeep elf).sections
      = (elf.sections.filter (fun s => s.name ≠ "")).map
          (ELFSectionObject.generate_attributes H hasPydeep)
    ∧ (ELFObject.generate_attributes H hasPydeep elf).references
      = (List.range (elf.sections.filter (fun s => s.name ≠ "")).length).map
          (fun i => MISPReference.mk i "includes"
            ("Section " ++ toString i ++ " of ELF")) := by
  rw [generate_attributes_eq]
  exact ⟨rfl, rfl⟩

/-- C6: every enum-label attribute (binary type/arch/os_abi, section
type/flag) carries the parser's rendered classification stripped to the bare
label by `str(x).split('.')[1]`; the stripping sends "NS.LABEL" to "LABEL"
and its output never contains a dot. -/
theorem c6_enum_label_attributes (H : ExtLib) (hasPydeep : Bool)
    (elf : ELFBinary) (sec : ELFSection) (ns label : String)
    (hns : '.' ∉ ns.data) (hlab : '.' ∉ label.data) :
    attrValues (ELFObject.generate_attributes H hasPydeep elf).attributes "type"
      = [.str (enumLabel elf.header.file_type)]
    ∧ attrValues (ELFObject.generate_attributes H hasPydeep elf).attributes "arch"
      = [.str (enumLabel elf.header.machine_type)]
    ∧ attrValues (ELFObject.generate_attributes H hasPydeep elf).attributes "os_abi"
      = [.str (enumLabel elf.header.identity_os_abi)]
    ∧ attrValues (ELFSectionObject.generate_attributes H hasPydeep sec) "type"
      = [.str (enumLabel sec.type)]
    ∧ attrValues (ELFSectionObject.generate_attributes H hasPydeep sec) "flag"
      = sec.flags_list.map (fun f => .str (enumLabel f))
    ∧ enumLabel (ns ++ "." ++ label) = label
    ∧ ∀ s : String, '.' ∉ (enumLabel s).data := by
  refine ⟨?_, ?_, ?_, ?_, ?_,
    enumLabel_strip ns label hns hlab, enumLabel_no_dot⟩
  · rw [generate_attributes_eq]; simp [attrValues, List.filter_cons]
  · rw [generate_attributes_eq]; simp [attrValues, List.filter_cons]
  · rw [generate_attributes_eq]; simp [attrValues, List.filter_cons]
  · have hflag : ((sec.flags_list.map
        (fun f => MISPAttribute.mk "flag" (.str (enumLabel f)))).filter
        (fun a => a.object_relation == "type")) = [] :=
      filter_flagAttrs _ _ (fun v => rfl)
    by_cases hsz : 0 < sec.size <;> cases hasPydeep <;>
      simp [attrValues, ELFSectionObject.generate_attributes, hsz,
        List.filter_append, hflag]
  · have hmap : ((sec.flags_list.map
        (fun f => MISPAttribute.mk "flag" (.str (enumLabel f)))).filter
        (fun a => a.object_relation == "flag"))
        = sec.flags_list.map
            (fun f => MISPAttribute.mk "flag" (.str (enumLabel f))) := by
      induction sec.flags_list with
      | nil => rfl
      | cons f fl ih => simp [List.filter_cons, ih]
    by_cases hsz : 0 < sec.size <;> cases hasPydeep <;>
      simp [attrValues, ELFSectionObject.generate_attributes, hsz,
        List.filter_append, hmap, List.map_map, Function.comp]

theorem c6_enum_label_attributes_witness :
    '.' ∉ ("ELF" : String).data ∧ '.' ∉ ("EXE" : String).data ∧
    attrValues (ELFObject.generate_attributes constExtLib true sampleBinary).attributes "type"
      = [.str (enumLabel sampleBinary.header.file_type)] ∧
    attrValues (ELFSectionObject.generate_attributes constExtLib true sampleSection) "flag"
      = sampleSection.flags_list.map (fun f => .str (enumLabel f)) ∧
    enumLabel ("ELF" ++ "." ++ "EXE") = "EXE" ∧
    '.' ∉ (enumLabel "ELF.EXE").data := by
  have h := c6_enum_label_attributes constExtLib true sampleBinary
    sampleSection "ELF" "EXE" (by decide) (by decide)
  exact ⟨by decide, by decide, h.1, h.2.2.2.2.1, h.2.2.2.2.2.1,
    h.2.2.2.2.2.2 "ELF.EXE"⟩

/-- C4 counterexample: supplying the integer 0 as the raw buffer (an
unsupported type) does not raise the wrong-type InvalidMISPObject error;
being falsy, it skips input resolution entirely and construction fails with
AttributeError in attribute generation instead. -/
theorem c4_counterexample :
    ELFObject.init constExtLib true noParse noParse noParsePath
      .noneArg none (.intVal 0)
      = .error (.attributeError "_ELFObject__elf") := rfl

/-- C4 amended: supplying a truthy raw buffer of an unsupported type (e.g. a
nonzero integer), or only a truthy pre-parsed descriptor that is not a
lief.ELF.Binary, makes construction fail with the wrong-type
InvalidMISPObject error (the spec's InvalidInput) and produce no record. -/
theorem c4_invalid_input_amended (H : ExtLib) (hasPydeep : Bool)
    (parseObj parseRaw : List Nat → Option ELFBinary)
    (parsePath : String → Option ELFBinary)
    (parsed : ParsedArg) (filepath : Option String)
    (n : Int) (hn : n ≠ 0) (tyName : String) :
    ELFObject.init H hasPydeep parseObj parseRaw parsePath
        parsed filepath (.intVal n)
      = .error (.invalidMISPObject "Pseudo file can be BytesIO or bytes got int")
    ∧ ELFObject.init H hasPydeep parseObj parseRaw parsePath
        (.other tyName true) none .noneArg
      = .error (.invalidMISPObject ("Not a lief.ELF.Binary: " ++ tyName)) := by
  constructor
  · have ht : (PseudoFileArg.intVal n).truthy = true := by
      simp [PseudoFileArg.truthy, hn]
    unfold ELFObject.init resolveELF
    rw [if_pos ht]
  · rfl

theorem c4_invalid_input_amended_witness :
    (5 : Int) ≠ 0 ∧
    ELFObject.init constExtLib true noParse noParse noParsePath
        .noneArg none (.intVal 5)
      = .error (.invalidMISPObject "Pseudo file can be BytesIO or bytes got int") ∧
    ELFObject.init constExtLib true noParse noParse noParsePath
        (.other "int" true) none .noneArg
      = .error (.invalidMISPObject ("Not a lief.ELF.Binary: " ++ "int")) := by
  have h := c4_invalid_input_amended constExtLib true noParse noParse
    noParsePath .noneArg none 5 (by decide) "int"
  exact ⟨by decide, h.1, h.2⟩

/-- C5 counterexample: for a file-path input the parser cannot interpret,
construction does not fail with the UnparsableBinary error: the filepath
branch has no else, so the binary stays unset and attribute generation fails
with AttributeError. -/
theorem c5_counterexample :
    ELFObject.init constExtLib true noParse noParse noParsePath
      .noneArg (some "/tmp/not_an_elf") .noneArg
      = .error (.attributeError "_ELFObject__elf") := rfl

/-- C5 amended: when the parser yields no result, a truthy raw buffer input
(BytesIO, bytes or list of ints) fails with the "Unable to parse pseudofile"
InvalidMISPObject error (the spec's UnparsableBinary), but a truthy file
path does not: it proceeds to attribute generation and fails with
AttributeError. -/
theorem c5_unparsable_amended (H : ExtLib) (hasPydeep : Bool)
    (parseObj parseRaw : List Nat → Option ELFBinary)
    (parsePath : String → Option ELFBinary)
    (parsed : ParsedArg) (filepath : Option String)
    (bs l : List Nat) (p : String)
    (hobj : parseObj bs = none) (hraw : parseRaw bs = none)
    (hrawl : parseRaw l = none) (hbs : bs ≠ []) (hl : l ≠ [])
    (hp : p ≠ "") (hpath : parsePath p = none) :
    ELFObject.init H hasPydeep parseObj parseRaw parsePath
        parsed filepath (.byteStream bs)
      = .error (.invalidMISPObject "Unable to parse pseudofile")
    ∧ ELFObject.init H hasPydeep parseObj parseRaw parsePath
        parsed filepath (.bytes bs)
      = .error (.invalidMISPObject "Unable to parse pseudofile")
    ∧ ELFObject.init H hasPydeep parseObj parseRaw parsePath
        parsed filepath (.intList l)
      = .error (.invalidMISPObject "Unable to parse pseudofile")
    ∧ ELFObject.init H hasPydeep parseObj parseRaw parsePath
        parsed (some p) .noneArg
      = .error (.attributeError "_ELFObject__elf") := by
  refine ⟨?_, ?_, ?_, ?_⟩
  · unfold ELFObject.init resolveELF
    simp [PseudoFileArg.truthy, hobj]
  · obtain ⟨b, bs', rfl⟩ := List.exists_cons_of_ne_nil hbs
    unfold ELFObject.init resolveELF
    simp [PseudoFileArg.truthy, hraw]
  · obtain ⟨x, l', rfl⟩ := List.exists_cons_of_ne_nil hl
    unfold ELFObject.init resolveELF
    simp [PseudoFileArg.truthy, hrawl]
  · unfold ELFObject.init resolveELF
    simp [PseudoFileArg.truthy, filepathTruthy, hp, hpath]

theorem c5_unparsable_amended_witness :
    noParse [1] = none ∧ ([1] : List Nat) ≠ [] ∧ ("/tmp/x" : String) ≠ ""
    ∧ noParsePath "/tmp/x" = none ∧
    ELFObject.init constExtLib true noParse noParse noParsePath
        .noneArg none (.byteStream [1])
      = .error (.invalidMISPObject "Unable to parse pseudofile") ∧
    ELFObject.init constExtLib true noParse noParse noParsePath
        .noneArg none (.bytes [1])
      = .error (.invalidMISPObject "Unable to parse pseudofile") ∧
    ELFObject.init constExtLib true noParse noParse noParsePath
        .noneArg none (.intList [1])
      = .error (.invalidMISPObject "Unable to parse pseudofile") ∧
    ELFObject.init constExtLib true noParse noParse noParsePath
        .noneArg (some "/tmp/x") .noneArg
      = .error (.attributeError "_ELFObject__elf") := by
  have h := c5_unparsable_amended constExtLib true noParse noParse noParsePath
    .noneArg none [1] [1] "/tmp/x" rfl rfl rfl (by decide) (by decide)
    (by decide) rfl
  exact ⟨rfl, by decide, by decide, rfl, h.1, h.2.1, h.2.2.1, h.2.2.2⟩

/-- C9: when all three inputs are absent or falsy (e.g. empty bytes, empty
list, the integer 0), input resolution raises neither the wrong-type nor the
parse-failure InvalidMISPObject error; construction reaches attribute
generation and fails there with AttributeError because self.__elf was never
assigned. -/
theorem c9_falsy_inputs (H : ExtLib) (hasPydeep : Bool)
    (parseObj parseRaw : List Nat → Option ELFBinary)
    (parsePath : String → Option ELFBinary)
    (parsed : ParsedArg) (filepath : Option String)
    (pseudofile : PseudoFileArg)
    (h1 : pseudofile.truthy = false) (h2 : filepathTruthy filepath = false)
    (h3 : parsed.truthy = false) :
    ELFObject.init H hasPydeep parseObj parseRaw parsePath
        parsed filepath pseudofile
      = .error (.attributeError "_ELFObject__elf") := by
  unfold ELFObject.init resolveELF
  simp [h1, h2, h3]

theorem c9_falsy_inputs_witness :
    (PseudoFileArg.bytes []).truthy = false ∧ filepathTruthy none = false
    ∧ ParsedArg.noneArg.truthy = false ∧
    ELFObject.init constExtLib true noParse noParse noParsePath
        .noneArg none (.bytes [])
      = .error (.attributeError "_ELFObject__elf") ∧
    ELFObject.init constExtLib true noParse noParse noParsePath
        .noneArg none (.intVal 0)
      = .error (.attributeError "_ELFObject__elf") := by
  refine ⟨rfl, rfl, rfl, ?_, ?_⟩
  · exact c9_falsy_inputs constExtLib true noParse noParse noParsePath
      _ _ _ rfl rfl rfl
  · exact c9_falsy_inputs constExtLib true noParse noParse noParsePath
      _ _ _ rfl rfl rfl

/-- C10: input resolution uses fixed precedence pseudofile, then filepath,
then parsed: a truthy pseudofile makes the result independent of the other
two arguments, and with a falsy pseudofile a truthy filepath makes the
result independent of parsed; multiplicity is never an error. -/
theorem c10_input_precedence (H : ExtLib) (hasPydeep : Bool)
    (parseObj parseRaw : List Nat → Option ELFBinary)
    (parsePath : String → Option ELFBinary)
    (parsed parsed2 : ParsedArg) (filepath filepath2 : Option String)
    (pseudofile : PseudoFileArg) :
    (pseudofile.truthy = true →
      ELFObject.init H hasPydeep parseObj parseRaw parsePath
          parsed filepath pseudofile
        = ELFObject.init H hasPydeep parseObj parseRaw parsePath
            parsed2 filepath2 pseudofile)
    ∧ (pseudofile.truthy = false → filepathTruthy filepath = true →
      ELFObject.init H hasPydeep parseObj parseRaw parsePath
          parsed filepath pseudofile
        = ELFObject.init H hasPydeep parseObj parseRaw parsePath
            parsed2 filepath pseudofile) := by
  constructor
  · intro ht
    unfold ELFObject.init resolveELF
    rw [if_pos ht, if_pos ht]
  · intro hf ht
    have hnp : ¬ pseudofile.truthy = true := by simp [hf]
    unfold ELFObject.init resolveELF
    rw [if_neg hnp, if_neg hnp, if_pos ht, if_pos ht]

theorem c10_input_precedence_witness :
    (PseudoFileArg.bytes [1]).truthy = true ∧
    ELFObject.init constExtLib true noParse noParse noParsePath
        (.binary sampleBinary) (some "/tmp/x") (.bytes [1])
      = ELFObject.init constExtLib true noParse noParse noParsePath
          .noneArg none (.bytes [1]) ∧
    PseudoFileArg.noneArg.truthy = false ∧
    filepathTruthy (some "/tmp/x") = true ∧
    ELFObject.init constExtLib true noParse noParse noParsePath
        (.binary sampleBinary) (some "/tmp/x") .noneArg
      = ELFObject.init constExtLib true noParse noParse noParsePath
          .noneArg (some "/tmp/x") .noneArg := by
  refine ⟨rfl, ?_, rfl, by decide, ?_⟩
  · exact (c10_input_precedence constExtLib true noParse noParse noParsePath
      (.binary sampleBinary) .noneArg (some "/tmp/x") none (.bytes [1])).1 rfl
  · exact (c10_input_precedence constExtLib true noParse noParse noParsePath
      (.binary sampleBinary) .noneArg (some "/tmp/x") none .noneArg).2
      rfl (by decide)
